import Mathlib

/-!
Shallow embedding of the order-management service
(`src/services/OrderService.js`, `src/models/OrderModel.js`,
`src/utils/mapper.js`).  The typed exception declared in
`src/exceptions/ResourceNotFoundException.js` is never imported by the
service, so its throw sites actually raise a plain ReferenceError.

JavaScript numbers are modelled as rationals with an explicit NaN; absent
(`undefined`) values are modelled with `Option` or an explicit `JVal.undef`
constructor.  The PostgreSQL store is modelled as lists of header and item
rows, and each service workflow is a function from the committed store to a
result, the new committed store, and a trace of connection/transaction
events.
-/

/-- A JavaScript number: either NaN or a (rational) numeric value.
JS numbers are IEEE doubles; the claims only exercise values that are exact
in ℚ, so rationals model them faithfully here. -/
inductive JNum where
  | nan : JNum
  | num (q : ℚ) : JNum
deriving DecidableEq

/-- A dynamic JavaScript value as it can appear in a request body field:
`undefined`, `null`, a number (NaN separated out), or a string. -/
inductive JVal where
  | undef : JVal
  | null : JVal
  | num (q : ℚ) : JVal
  | nan : JVal
  | str (s : String) : JVal
deriving DecidableEq

/-- JavaScript truthiness: `undefined`, `null`, `0`, `NaN` and `""` are
falsy; every other value in our universe is truthy. -/
def JVal.truthy : JVal → Bool
  | .undef => false
  | .null => false
  | .num q => decide (q ≠ 0)
  | .nan => false
  | .str s => decide (s ≠ "")

/-- The JS `a || b` operator: the first operand if truthy, else the second. -/
def jsOr (a b : JVal) : JVal := if a.truthy then a else b

/-- Value of a decimal digit character, if it is one. -/
def digitVal (c : Char) : Option Nat :=
  if '0' ≤ c ∧ c ≤ '9' then some (c.toNat - '0'.toNat) else none

/-- Consume a maximal run of decimal digits, left to right.
Returns the accumulated value, the number of digits consumed, and the rest. -/
def takeDigitsAux (acc n : Nat) : List Char → Nat × Nat × List Char
  | [] => (acc, n, [])
  | c :: cs =>
    match digitVal c with
    | none => (acc, n, c :: cs)
    | some d => takeDigitsAux (acc * 10 + d) (n + 1) cs

/-- Consume exactly `k` decimal digits, left to right; `none` if fewer. -/
def takeExactAux (acc : Nat) : Nat → List Char → Option (Nat × List Char)
  | 0, cs => some (acc, cs)
  | _ + 1, [] => none
  | k + 1, c :: cs =>
    match digitVal c with
    | none => none
    | some d => takeExactAux (acc * 10 + d) k cs

/-- JS whitespace characters relevant to `parseInt` trimming. -/
def isJsSpace (c : Char) : Bool :=
  c = ' ' || c = '\t' || c = '\n' || c = '\r'

/-- Model of the JS builtin `parseInt(s, 10)` on a string: trim leading
whitespace, read an optional sign and then a maximal run of decimal digits;
NaN when no digit is read. -/
def jsParseIntChars (cs0 : List Char) : JNum :=
  let cs := cs0.dropWhile isJsSpace
  match cs with
  | '-' :: rest =>
    let (v, n, _) := takeDigitsAux 0 0 rest
    if n = 0 then .nan else .num (-(v : ℚ))
  | '+' :: rest =>
    let (v, n, _) := takeDigitsAux 0 0 rest
    if n = 0 then .nan else .num (v : ℚ)
  | _ =>
    let (v, n, _) := takeDigitsAux 0 0 cs
    if n = 0 then .nan else .num (v : ℚ)

/-- Model of `parseInt(x, 10)` where `x` may be a string or absent:
`parseInt(undefined, 10)` stringifies its argument to `"undefined"` and
therefore yields NaN. -/
def jsParseInt : Option String → JNum
  | none => .nan
  | some s => jsParseIntChars s.toList

/-- Gregorian leap year. -/
def isLeap (y : Nat) : Bool :=
  (y % 4 = 0 && y % 100 ≠ 0) || y % 400 = 0

/-- Number of days in a month (1-12) of a year. -/
def daysInMonth (y m : Nat) : Nat :=
  if m = 2 then (if isLeap y then 29 else 28)
  else if m = 4 || m = 6 || m = 9 || m = 11 then 30
  else 31

/-- Days from the civil epoch 1970-01-01 to year/month/day
(proleptic Gregorian), via the standard era decomposition. -/
def daysFromCivil (y m d : Int) : Int :=
  let yAdj := if m ≤ 2 then y - 1 else y
  let era := Int.fdiv yAdj 400
  let yoe := yAdj - era * 400
  let mp := Int.emod (m + 9) 12
  let doy := Int.fdiv (153 * mp + 2) 5 + d - 1
  let doe := yoe * 365 + Int.fdiv yoe 4 - Int.fdiv yoe 100 + doy
  era * 146097 + doe - 719468

/-- Inverse of `daysFromCivil`: year/month/day of a day count from
1970-01-01. -/
def civilFromDays (z0 : Int) : Int × Int × Int :=
  let z := z0 + 719468
  let era := Int.fdiv z 146097
  let doe := z - era * 146097
  let yoe := Int.fdiv (doe - Int.fdiv doe 1460 + Int.fdiv doe 36524 - Int.fdiv doe 146096) 365
  let y := yoe + era * 400
  let doy := doe - (365 * yoe + Int.fdiv yoe 4 - Int.fdiv yoe 100)
  let mp := Int.fdiv (5 * doy + 2) 153
  let d := doy - Int.fdiv (153 * mp + 2) 5 + 1
  let m := if mp < 10 then mp + 3 else mp - 9
  (if m ≤ 2 then y + 1 else y, m, d)

/-- Components of a parsed date-time string. -/
structure DateParts where
  year : Nat
  month : Nat
  day : Nat
  hour : Nat
  minute : Nat
  second : Nat
  millis : Nat
  offsetMinutes : Int
deriving DecidableEq

/-- Epoch milliseconds of parsed date components. -/
def DateParts.toEpochMs (p : DateParts) : Int :=
  daysFromCivil p.year p.month p.day * 86400000
    + (p.hour : Int) * 3600000 + (p.minute : Int) * 60000
    + (p.second : Int) * 1000 + (p.millis : Int)
    - p.offsetMinutes * 60000

/-- Parse the fractional-seconds part `.d`, `.dd` or `.ddd` into
milliseconds (JS truncates further digits; the inputs here use at most 3). -/
def parseFraction (cs : List Char) : Option (Nat × List Char) :=
  match cs with
  | '.' :: rest =>
    let (v, n, rest2) := takeDigitsAux 0 0 rest
    if n = 1 then some (v * 100, rest2)
    else if n = 2 then some (v * 10, rest2)
    else if n = 3 then some (v, rest2)
    else none
  | _ => none

/-- Parse the timezone designator: `Z`, `+HH:MM` or `-HH:MM`, returning the
offset in minutes.  An empty rest means no designator. -/
def parseOffset (cs : List Char) : Option (Option Int) :=
  match cs with
  | [] => some none
  | ['Z'] => some (some 0)
  | '+' :: rest =>
    (do
      let (h, rest2) ← takeExactAux 0 2 rest
      match rest2 with
      | ':' :: rest3 => do
        let (mi, rest4) ← takeExactAux 0 2 rest3
        if rest4 = [] ∧ h ≤ 23 ∧ mi ≤ 59 then pure (some ((h : Int) * 60 + mi)) else none
      | _ => none)
  | '-' :: rest =>
    (do
      let (h, rest2) ← takeExactAux 0 2 rest
      match rest2 with
      | ':' :: rest3 => do
        let (mi, rest4) ← takeExactAux 0 2 rest3
        if rest4 = [] ∧ h ≤ 23 ∧ mi ≤ 59 then pure (some (-((h : Int) * 60 + mi))) else none
      | _ => none)
  | _ => none

/-- Parse the time-of-day part `HH:MM`, `HH:MM:SS` or `HH:MM:SS.sss`
followed by an optional timezone designator. -/
def parseTime (cs : List Char) : Option (Nat × Nat × Nat × Nat × Option Int) := do
  let (h, r1) ← takeExactAux 0 2 cs
  match r1 with
  | ':' :: r2 => do
    let (mi, r3) ← takeExactAux 0 2 r2
    let (s, ms, r7) ←
      match r3 with
      | ':' :: r4 => do
        let (s, r5) ← takeExactAux 0 2 r4
        match parseFraction r5 with
        | some (ms, r6) => pure (s, ms, r6)
        | none => pure (s, 0, r5)
      | _ => pure (0, 0, r3)
    let off ← parseOffset r7
    if h ≤ 24 ∧ mi ≤ 59 ∧ s ≤ 59 ∧ (h = 24 → (mi = 0 ∧ s = 0 ∧ ms = 0)) then
      pure (h, mi, s, ms, off)
    else none
  | _ => none

/-- Parse the date part `YYYY`, `YYYY-MM` or `YYYY-MM-DD` of an ISO string,
returning the remaining characters. -/
def parseDatePart (cs : List Char) : Option (Nat × Nat × Nat × List Char) := do
  let (y, r1) ← takeExactAux 0 4 cs
  match r1 with
  | '-' :: r2 => do
    let (m, r3) ← takeExactAux 0 2 r2
    match r3 with
    | '-' :: r4 => do
      let (d, r5) ← takeExactAux 0 2 r4
      pure (y, m, d, r5)
    | _ => pure (y, m, 1, r3)
  | _ => pure (y, 1, 1, r1)

/-- Model of the JS builtin `new Date(s).getTime()` restricted to the
ECMA-262 Date Time String Format (the only format with guaranteed
behaviour): `YYYY[-MM[-DD]][THH:MM[:SS[.sss]][Z|±HH:MM]]`.  A date-only
string is UTC; a time without designator is interpreted with offset 0 (the
host is taken to run in UTC).  Anything else is an Invalid Date, `none`. -/
def jsDateParseStr (str : String) : Option Int := do
  let cs := str.toList
  let (y, m, d, rest) ← parseDatePart cs
  let (h, mi, s, ms, off) ←
    match rest with
    | [] => pure (0, 0, 0, 0, some 0)
    | 'T' :: r => parseTime r
    | _ => none
  if 1 ≤ m ∧ m ≤ 12 ∧ 1 ≤ d ∧ d ≤ daysInMonth y m then
    pure (DateParts.toEpochMs
      ⟨y, m, d, h, mi, s, ms, (match off with | some o => o | none => 0)⟩)
  else none

/-- `new Date(x).getTime()` where `x` may be absent:
`new Date(undefined)` is an Invalid Date. -/
def jsDateParse : Option String → Option Int
  | none => none
  | some s => jsDateParseStr s

/-- Left-pad a natural number with zeros to the given width. -/
def padNum (width n : Nat) : String :=
  let s := toString n
  String.mk (List.replicate (width - s.length) '0') ++ s

/-- Model of the JS builtin `Date.prototype.toISOString` on a valid epoch
millisecond value: `YYYY-MM-DDTHH:MM:SS.sssZ` (expanded-year form outside
0000-9999, as in JS). -/
def jsToISOString (ms : Int) : String :=
  let day := Int.fdiv ms 86400000
  let msOfDay := (Int.fmod ms 86400000).toNat
  let ymd := civilFromDays day
  let y := ymd.1
  let m := ymd.2.1
  let d := ymd.2.2
  let yearStr :=
    if 0 ≤ y ∧ y ≤ 9999 then padNum 4 y.toNat
    else if y < 0 then "-" ++ padNum 6 (-y).toNat
    else "+" ++ padNum 6 y.toNat
  yearStr ++ "-" ++ padNum 2 m.toNat ++ "-" ++ padNum 2 d.toNat ++ "T"
    ++ padNum 2 (msOfDay / 3600000) ++ ":" ++ padNum 2 (msOfDay / 60000 % 60)
    ++ ":" ++ padNum 2 (msOfDay / 1000 % 60) ++ "." ++ padNum 3 (msOfDay % 1000) ++ "Z"


/-- The error universe of the service.  `OrderService.js` uses
`ResourceNotFoundException` at its not-found throw sites but never imports
it (its only requires are `OrderModel` and the mapper), so evaluating
`new ResourceNotFoundException(...)` throws a plain `ReferenceError`
carrying no resource name or identifier: that is `referenceError`.  The
rest are the other JS runtime errors of the mapper, the validation `Error`
thrown by `updateItemOrder`, and PostgreSQL failures (duplicate key 23505,
or a parameter/constraint conversion failure). -/
inductive Err where
  | typeError : Err
  | rangeError : Err
  | referenceError : Err
  | validation : Err
  | dupKey : Err
  | invalidValue : Err
deriving DecidableEq

/-- Inbound line item of an order payload (`items[i]` of the request body);
`none` models an absent (`undefined`) field. -/
structure InputItem where
  idItem : Option String
  quantidadeItem : Option JNum
  valorItem : Option JNum
deriving DecidableEq

/-- Inbound order payload (the request body); `none` models an absent
(`undefined`) field. -/
structure InputOrder where
  numeroPedido : Option String
  dataCriacao : Option String
  valorTotal : Option JNum
  items : Option (List InputItem)
deriving DecidableEq

/-- One mapped line item as produced by `mapToDatabaseFormat`. -/
structure MappedItem where
  productId : JNum
  quantity : Option JNum
  price : Option JNum
deriving DecidableEq

/-- The mapped order as produced by `mapToDatabaseFormat`. -/
structure MappedOrder where
  orderId : String
  value : Option JNum
  creationDate : String
  items : List MappedItem
deriving DecidableEq

/-- Characters before the first hyphen. -/
def takeUntilHyphen : List Char → List Char
  | [] => []
  | c :: cs => if c = '-' then [] else c :: takeUntilHyphen cs

/-- JS `s.split('-')[0]`: the prefix of `s` before the first hyphen
(the whole string when there is none). -/
def jsSplitHead (s : String) : String := String.mk (takeUntilHyphen s.toList)

/-- Embedding of `mapToDatabaseFormat` (src/utils/mapper.js).  Evaluation
order follows the source: `numeroPedido.split` first (TypeError when the
field is absent), then `new Date(dataCriacao).toISOString()` (RangeError
when the date is Invalid, including when the field is absent), then
`items.map` (TypeError when absent); `parseInt(idItem, 10)` never throws
and yields NaN for a non-parsable or absent `idItem`; `valorTotal`,
`quantidadeItem` and `valorItem` pass through untouched. -/
def mapToDatabaseFormat (inputOrder : InputOrder) : Except Err MappedOrder := do
  let orderId ← match inputOrder.numeroPedido with
    | none => Except.error Err.typeError
    | some s => Except.ok (jsSplitHead s)
  let creationDate ← match jsDateParse inputOrder.dataCriacao with
    | none => Except.error Err.rangeError
    | some ms => Except.ok (jsToISOString ms)
  let transformedItems ← match inputOrder.items with
    | none => Except.error Err.typeError
    | some l => Except.ok (l.map fun item =>
        MappedItem.mk (jsParseInt item.idItem) item.quantidadeItem item.valorItem)
  Except.ok ⟨orderId, inputOrder.valorTotal, creationDate, transformedItems⟩

/-- A row of the `Orders` table.  `value` is the NUMERIC total;
`creationdate` is the timestamp as epoch milliseconds (the pg driver hands
it back to JS as a `Date`). -/
structure OrderRow where
  orderid : String
  value : ℚ
  creationdate : Int
deriving DecidableEq

/-- A row of the `Items` table. -/
structure ItemRow where
  orderid : String
  productid : Int
  quantity : Int
  price : ℚ
deriving DecidableEq

/-- The committed relational store. -/
structure Db where
  orders : List OrderRow
  items : List ItemRow
deriving DecidableEq

/-- PostgreSQL conversion of a JS value bound to an INTEGER parameter:
only an integral number converts. -/
def pgIntParam : JVal → Option Int
  | .num q => if q.den = 1 then some q.num else none
  | _ => none

/-- PostgreSQL conversion of a JS value bound to a NUMERIC parameter:
only a (finite) number converts. -/
def pgNumParam : JVal → Option ℚ
  | .num q => some q
  | _ => none

/-- The `Orders` row a mapped order converts to, when its `value` is a
finite number and its `creationDate` string is a valid timestamp; `none`
models a PostgreSQL parameter-conversion failure. -/
def rowOfHeader (d : MappedOrder) : Option OrderRow :=
  match d.value, jsDateParseStr d.creationDate with
  | some (.num q), some ms => some ⟨d.orderId, q, ms⟩
  | _, _ => none

/-- The `Items` row a mapped item converts to, when `productId` and
`quantity` are integral numbers and `price` is a number; `none` models a
PostgreSQL parameter-conversion failure (e.g. a NaN `productId`). -/
def rowOfItem (orderId : String) (it : MappedItem) : Option ItemRow :=
  match it.productId, it.quantity, it.price with
  | .num p, some (.num qn), some (.num pr) =>
    if p.den = 1 ∧ qn.den = 1 then some ⟨orderId, p.num, qn.num, pr⟩ else none
  | _, _, _ => none

/-- `OrderModel.insertOrder`: `INSERT INTO Orders (orderId, value,
creationDate) VALUES ($1,$2,$3)` against the transaction's view.
Parameter conversion failures and the primary-key violation on a duplicate
`orderId` (PostgreSQL error 23505) are the failure modes. -/
def insertOrder (view : Db) (orderData : MappedOrder) : Except Err Db :=
  match rowOfHeader orderData with
  | none => Except.error Err.invalidValue
  | some row =>
    if view.orders.any (fun r => r.orderid == row.orderid) then Except.error Err.dupKey
    else Except.ok ⟨view.orders ++ [row], view.items⟩

/-- `OrderModel.insertOrderItem`: `INSERT INTO Items (orderId, productId,
quantity, price) VALUES ($1,$2,$3,$4)` against the transaction's view,
with the foreign-key check on `orderId`. -/
def insertOrderItem (view : Db) (orderId : String) (item : MappedItem) : Except Err Db :=
  match rowOfItem orderId item with
  | none => Except.error Err.invalidValue
  | some row =>
    if view.orders.any (fun r => r.orderid == orderId) then
      Except.ok ⟨view.orders, view.items ++ [row]⟩
    else Except.error Err.invalidValue

/-- `OrderModel.findOrderById`: `SELECT ... FROM Orders WHERE orderId = $1`
(the returned `rows`). -/
def findOrderById (db : Db) (orderId : String) : List OrderRow :=
  db.orders.filter (fun r => r.orderid == orderId)

/-- `OrderModel.findItemsByOrderId`: `SELECT ... FROM Items WHERE
orderId = $1` (the returned `rows`). -/
def findItemsByOrderId (db : Db) (orderId : String) : List ItemRow :=
  db.items.filter (fun r => r.orderid == orderId)

/-- `OrderModel.updateOrderHeader`: `UPDATE Orders SET value=$1,
creationDate=$2 WHERE orderId=$3`, returning the affected-row count and
the updated view. -/
def updateOrderHeader (view : Db) (orderId : String) (orderData : MappedOrder) :
    Except Err (Nat × Db) :=
  match orderData.value, jsDateParseStr orderData.creationDate with
  | some (.num q), some ms =>
    let rowCount := (view.orders.filter (fun r => r.orderid == orderId)).length
    Except.ok (rowCount,
      ⟨view.orders.map (fun r =>
         if r.orderid == orderId then ⟨r.orderid, q, ms⟩ else r),
       view.items⟩)
  | _, _ => Except.error Err.invalidValue

/-- `OrderModel.updateOrderItem`: `UPDATE Items SET quantity=$1, price=$2
WHERE orderId=$3 AND productId=$4`, returning the affected-row count and
the updated view. -/
def updateOrderItem (view : Db) (orderId : String) (productId : Int)
    (quantityVal priceVal : JVal) : Except Err (Nat × Db) :=
  match pgIntParam quantityVal, pgNumParam priceVal with
  | some qi, some pr =>
    let rowCount := (view.items.filter
      (fun r => r.orderid == orderId && r.productid == productId)).length
    Except.ok (rowCount,
      ⟨view.orders,
       view.items.map (fun r =>
         if r.orderid == orderId && r.productid == productId then
           ⟨r.orderid, r.productid, qi, pr⟩ else r)⟩)
  | _, _ => Except.error Err.invalidValue

/-- `OrderModel.deleteOrderHeader`: `DELETE FROM Orders WHERE orderId=$1`
on the committed store; the store's ON DELETE CASCADE removes the items of
every deleted header row. -/
def deleteOrderHeader (db : Db) (orderId : String) : Nat × Db :=
  let deleted := db.orders.filter (fun r => r.orderid == orderId)
  (deleted.length,
   ⟨db.orders.filter (fun r => !(r.orderid == orderId)),
    if deleted.isEmpty then db.items
    else db.items.filter (fun r => !(r.orderid == orderId))⟩)

/-- Connection and transaction events of one service call, in order:
`connect` is `pool.connect()`, `begin`/`commit`/`rollback` are the
corresponding `client.query` calls, `clientQuery` is any other statement on
the transactional client, `poolQuery` a statement on the pool (the
stand-alone `query` helper), and `release` is `client.release()`. -/
inductive Event where
  | connect : Event
  | begin : Event
  | clientQuery : Event
  | poolQuery : Event
  | commit : Event
  | rollback : Event
  | release : Event
deriving DecidableEq

/-- One line item of a formatted order response. -/
structure ItemResponse where
  productId : Int
  quantity : Int
  price : JNum
deriving DecidableEq

/-- A formatted order response (`formatOrderResponse`'s shape). -/
structure OrderResponse where
  orderId : String
  value : JNum
  creationDate : String
  items : List ItemResponse
deriving DecidableEq

/-- Embedding of `formatOrderResponse` (src/services/OrderService.js).
The pg driver returns NUMERIC columns as their decimal strings and the
service applies `parseFloat`; `parseFloat` of the decimal rendering of a
NUMERIC value is that value again, so the composition is modelled as the
identity into a JS number.  `creationdate` comes back as a JS `Date` and
is serialized with `toISOString`. -/
def formatOrderResponse (orderRow : OrderRow) (itemRows : List ItemRow) : OrderResponse :=
  ⟨orderRow.orderid,
   JNum.num orderRow.value,
   jsToISOString orderRow.creationdate,
   itemRows.map fun item => ⟨item.productid, item.quantity, JNum.num item.price⟩⟩

/-- The item-insert loop of `createOrder`: insert each mapped item in input
order on the transaction's view, stopping at the first failure.  Returns
the outcome and the trace of item-insert statements actually issued. -/
def insertItemsLoop (view : Db) (orderId : String) :
    List MappedItem → Except Err Db × List Event
  | [] => (Except.ok view, [])
  | item :: rest =>
    match insertOrderItem view orderId item with
    | Except.error e => (Except.error e, [Event.clientQuery])
    | Except.ok view2 =>
      let r := insertItemsLoop view2 orderId rest
      (r.1, Event.clientQuery :: r.2)

/-- Embedding of `createOrder` (src/services/OrderService.js): map the
input (outside the transaction), connect, BEGIN, insert the header, insert
each item sequentially, COMMIT and return `(orderId, mappedData)`; on any
failure inside the block, ROLLBACK (the committed store stays unchanged)
and rethrow the original error; the client is released on every path out
of the block. -/
def createOrder (inputBody : InputOrder) (db : Db) :
    Except Err (String × MappedOrder) × Db × List Event :=
  match mapToDatabaseFormat inputBody with
  | Except.error e => (Except.error e, db, [])
  | Except.ok mappedData =>
    match insertOrder db mappedData with
    | Except.error e =>
      (Except.error e, db,
       [Event.connect, Event.begin, Event.clientQuery, Event.rollback, Event.release])
    | Except.ok view1 =>
      match insertItemsLoop view1 mappedData.orderId mappedData.items with
      | (Except.error e, evs) =>
        (Except.error e, db,
         [Event.connect, Event.begin, Event.clientQuery] ++ evs
           ++ [Event.rollback, Event.release])
      | (Except.ok view2, evs) =>
        (Except.ok (mappedData.orderId, mappedData), view2,
         [Event.connect, Event.begin, Event.clientQuery] ++ evs
           ++ [Event.commit, Event.release])

/-- Embedding of `getOrderDetails` (src/services/OrderService.js): read the
header rows; if none, line 94 evaluates `new ResourceNotFoundException(...)`
— a class this file never imports — and therefore throws a ReferenceError
with no payload; else read the order's items and format `rows[0]` with
them. -/
def getOrderDetails (db : Db) (orderId : String) :
    Except Err OrderResponse × Db × List Event :=
  match findOrderById db orderId with
  | [] =>
    (Except.error Err.referenceError, db, [Event.poolQuery])
  | orderRow :: _ =>
    (Except.ok (formatOrderResponse orderRow (findItemsByOrderId db orderId)), db,
     [Event.poolQuery, Event.poolQuery])

/-- Embedding of `updateOrder` (src/services/OrderService.js): map the
input (outside the transaction), connect, BEGIN, check existence via the
pool-side `findOrderById` (when absent, line 151 evaluates the unimported
`ResourceNotFoundException`, throwing a payload-free ReferenceError),
update the header,
COMMIT and return `true`; on any failure inside the block, ROLLBACK and
rethrow; the client is released on every path out of the block. -/
def updateOrder (orderId : String) (inputBody : InputOrder) (db : Db) :
    Except Err Bool × Db × List Event :=
  match mapToDatabaseFormat inputBody with
  | Except.error e => (Except.error e, db, [])
  | Except.ok mappedData =>
    match findOrderById db orderId with
    | [] =>
      (Except.error Err.referenceError, db,
       [Event.connect, Event.begin, Event.poolQuery, Event.rollback, Event.release])
    | _ :: _ =>
      match updateOrderHeader db orderId mappedData with
      | Except.error e =>
        (Except.error e, db,
         [Event.connect, Event.begin, Event.poolQuery, Event.clientQuery,
          Event.rollback, Event.release])
      | Except.ok (_, view) =>
        (Except.ok true, view,
         [Event.connect, Event.begin, Event.poolQuery, Event.clientQuery,
          Event.commit, Event.release])

/-- Inbound body of an item update; each field is a dynamic JS value
(`undef` models absence). -/
structure ItemBody where
  quantidadeItem : JVal
  quantity : JVal
  valorItem : JVal
  price : JVal
deriving DecidableEq

/-- Embedding of `updateItemOrder` (src/services/OrderService.js): build
`itemData` with the JS `||` fallbacks (`quantidadeItem || quantity`,
`valorItem || price`), throw the validation `Error` when either result
`=== undefined` (before any store access); check order existence via the
pool-side `findOrderById` (outside any transaction); then connect, BEGIN,
update the item by (orderId, productId); the absent-order path (line 196)
and the zero-affected-rows path (line 208) both evaluate the unimported
`ResourceNotFoundException` and so throw a payload-free ReferenceError
(the latter after starting the transaction, hence rolled back); else COMMIT
and return `rowCount > 0`; the client is released on every path out of the
block. -/
def updateItemOrder (orderId : String) (productId : Int) (inputItemBody : ItemBody)
    (db : Db) : Except Err Bool × Db × List Event :=
  let itemQuantity := jsOr inputItemBody.quantidadeItem inputItemBody.quantity
  let itemPrice := jsOr inputItemBody.valorItem inputItemBody.price
  if itemQuantity = JVal.undef ∨ itemPrice = JVal.undef then
    (Except.error Err.validation, db, [])
  else
    match findOrderById db orderId with
    | [] =>
      (Except.error Err.referenceError, db, [Event.poolQuery])
    | _ :: _ =>
      match updateOrderItem db orderId productId itemQuantity itemPrice with
      | Except.error e =>
        (Except.error e, db,
         [Event.poolQuery, Event.connect, Event.begin, Event.clientQuery,
          Event.rollback, Event.release])
      | Except.ok (rowCount, view) =>
        if rowCount = 0 then
          (Except.error Err.referenceError,
           db,
           [Event.poolQuery, Event.connect, Event.begin, Event.clientQuery,
            Event.rollback, Event.release])
        else
          (Except.ok (decide (0 < rowCount)), view,
           [Event.poolQuery, Event.connect, Event.begin, Event.clientQuery,
            Event.commit, Event.release])

/-- Embedding of `deleteOrder` (src/services/OrderService.js): delete the
header row (items cascade inside the store); on zero affected rows line 240
evaluates the unimported `ResourceNotFoundException` and throws a
payload-free ReferenceError; otherwise the function returns normally (with
no explicit value). -/
def deleteOrder (orderId : String) (db : Db) : Except Err Unit × Db × List Event :=
  let result := deleteOrderHeader db orderId
  if result.1 = 0 then
    (Except.error Err.referenceError, result.2, [Event.poolQuery])
  else
    (Except.ok (), result.2, [Event.poolQuery])

/-- The worked example payload of the spec (§8); `mkRat 199 2` is 99.5
(`mkRat` is used for non-integer literals so concrete runs reduce in the
kernel). -/
def sampleInput : InputOrder :=
  ⟨some "1001-01", some "2024-01-01T00:00:00+00:00", some (JNum.num (mkRat 199 2)),
   some [⟨some "7", some (JNum.num 2), some (JNum.num 10)⟩]⟩

/-- The mapped form of `sampleInput`. -/
def sampleMapped : MappedOrder :=
  ⟨"1001", some (JNum.num (mkRat 199 2)), "2024-01-01T00:00:00.000Z",
   [⟨JNum.num 7, some (JNum.num 2), some (JNum.num 10)⟩]⟩

/-- A one-order, one-item store used as concrete witness data. -/
def sampleDb : Db :=
  ⟨[⟨"1001", mkRat 199 2, 1704067200000⟩], [⟨"1001", 7, 2, 10⟩]⟩

/-- An item-update body carrying `quantidadeItem = 3`, `valorItem = 5`. -/
def sampleBody : ItemBody := ⟨JVal.num 3, JVal.undef, JVal.num 5, JVal.undef⟩

/-- Resource discipline of one workflow call: as many releases as connects,
and whenever the call ends in an error after a connect, the trace ends with
the rollback immediately followed by the release. -/
def txSafe {α : Type} (out : Except Err α × Db × List Event) : Prop :=
  out.2.2.count Event.connect = out.2.2.count Event.release ∧
  ∀ e, out.1 = Except.error e → Event.connect ∈ out.2.2 →
    ∃ pre, out.2.2 = pre ++ [Event.rollback, Event.release]

/-- The item rows a list of mapped items converts to, in order; `none`
when any conversion fails. -/
def rowsOfItems (orderId : String) : List MappedItem → Option (List ItemRow)
  | [] => some []
  | it :: rest =>
    match rowOfItem orderId it, rowsOfItems orderId rest with
    | some r, some rs => some (r :: rs)
    | _, _ => none

/-- Equality of `Except` values over decidable component types is
decidable (needed to settle concrete runs by `decide`). -/
instance exceptDecidableEq {e a : Type} [DecidableEq e] [DecidableEq a] :
    DecidableEq (Except e a) := fun x y =>
  match x, y with
  | Except.error e1, Except.error e2 =>
    if h : e1 = e2 then isTrue (by rw [h]) else isFalse (by intro hh; cases hh; exact h rfl)
  | Except.error _, Except.ok _ => isFalse (by intro hh; cases hh)
  | Except.ok _, Except.error _ => isFalse (by intro hh; cases hh)
  | Except.ok v1, Except.ok v2 =>
    if h : v1 = v2 then isTrue (by rw [h]) else isFalse (by intro hh; cases hh; exact h rfl)

/-- Unfolding of the mapper on an input whose `numeroPedido` and `items`
are present and whose `dataCriacao` parses. -/
theorem mapToDatabaseFormat_ok (s : String) (dc : Option String) (ms : Int)
    (vt : Option JNum) (l : List InputItem) (hdc : jsDateParse dc = some ms) :
    mapToDatabaseFormat ⟨some s, dc, vt, some l⟩ =
      Except.ok ⟨jsSplitHead s, vt, jsToISOString ms,
        l.map fun item =>
          MappedItem.mk (jsParseInt item.idItem) item.quantidadeItem item.valorItem⟩ := by
  simp only [mapToDatabaseFormat, hdc]
  rfl

/-- C2: the spec's worked example maps as stated: orderId "1001" (first
hyphen onward removed), creationDate normalized to
"2024-01-01T00:00:00.000Z", value 99.5 passed through, and the single item
becomes productId 7 (integer-parsed), quantity 2, price 10. -/
theorem claim_C2_mapper_example :
    mapToDatabaseFormat sampleInput = Except.ok sampleMapped := by decide

/-- Any error of the model-layer item update is the parameter-conversion
failure; it is never the validation error. -/
theorem updateOrderItem_error_shape (view : Db) (oid : String) (pid : Int)
    (qv pv : JVal) (e : Err)
    (h : updateOrderItem view oid pid qv pv = Except.error e) : e = Err.invalidValue := by
  unfold updateOrderItem at h
  split at h
  · exact absurd h (by simp)
  · injection h with h2
    exact h2.symm

/-- The mapper on an absent `numeroPedido`: `undefined.split` throws a
TypeError inside the mapper. -/
theorem mapToDatabaseFormat_absent_numeroPedido (dc : Option String)
    (vt : Option JNum) (its : Option (List InputItem)) :
    mapToDatabaseFormat ⟨none, dc, vt, its⟩ = Except.error Err.typeError := rfl

/-- The mapper on an unparseable (or absent) `dataCriacao`:
`toISOString` on the Invalid Date throws a RangeError inside the mapper. -/
theorem mapToDatabaseFormat_bad_date (s : String) (dc : Option String)
    (vt : Option JNum) (its : Option (List InputItem))
    (hdc : jsDateParse dc = none) :
    mapToDatabaseFormat ⟨some s, dc, vt, its⟩ = Except.error Err.rangeError := by
  simp only [mapToDatabaseFormat, hdc]
  rfl

/-- The mapper on an absent `items`: `undefined.map` throws a TypeError
inside the mapper. -/
theorem mapToDatabaseFormat_absent_items (s : String) (dc : Option String)
    (ms : Int) (vt : Option JNum) (hdc : jsDateParse dc = some ms) :
    mapToDatabaseFormat ⟨some s, dc, vt, none⟩ = Except.error Err.typeError := by
  simp only [mapToDatabaseFormat, hdc]
  rfl

/-- C4, counterexample: on an item whose `idItem` is not integer-parsable
the mapper does NOT fail: it returns successfully with `productId = NaN`
(`parseInt` never throws), contradicting the claim that it fails with a
parse error in that case. -/
theorem claim_C4_counterexample :
    mapToDatabaseFormat
        ⟨some "1", some "2024-01-01", some (JNum.num 1),
         some [⟨some "abc", some (JNum.num 1), some (JNum.num 1)⟩]⟩ =
      Except.ok ⟨"1", some (JNum.num 1), "2024-01-01T00:00:00.000Z",
        [⟨JNum.nan, some (JNum.num 1), some (JNum.num 1)⟩]⟩ := by decide

/-- C4 (amended): the mapper is a pure function and fails deterministically
with the parse (Range) error whenever the date string is not parseable
(given `numeroPedido` is present, which is evaluated first); a
non-integer-parsable `idItem` does not make it fail — the produced
`productId` is `parseInt`'s NaN and the failure is deferred downstream. -/
theorem claim_C4_parse_failure (input : InputOrder) :
    (input.numeroPedido ≠ none → jsDateParse input.dataCriacao = none →
      mapToDatabaseFormat input = Except.error Err.rangeError) ∧
    (∀ d l, input.items = some l → mapToDatabaseFormat input = Except.ok d →
      d.items = l.map fun item =>
        MappedItem.mk (jsParseInt item.idItem) item.quantidadeItem item.valorItem) := by
  obtain ⟨np, dc, vt, its⟩ := input
  constructor
  · intro hnp hdc
    match np, hnp with
    | some s, _ => exact mapToDatabaseFormat_bad_date s dc vt its hdc
  · intro d l hl hok
    cases hl
    match np with
    | none =>
      rw [mapToDatabaseFormat_absent_numeroPedido] at hok
      exact Except.noConfusion hok
    | some s =>
      cases hdc : jsDateParse dc with
      | none =>
        rw [mapToDatabaseFormat_bad_date s dc vt (some l) hdc] at hok
        exact Except.noConfusion hok
      | some ms =>
        rw [mapToDatabaseFormat_ok s dc ms vt l hdc] at hok
        injection hok with h2
        rw [← h2]

/-- C4, witness for the amended theorem at a concrete input with an
unparseable date. -/
theorem claim_C4_witness :
    mapToDatabaseFormat ⟨some "1", some "garbage", none, none⟩ =
      Except.error Err.rangeError :=
  (claim_C4_parse_failure ⟨some "1", some "garbage", none, none⟩).1
    (by decide) (by decide)

/-- C8, counterexample: an input with `numeroPedido` absent does not reach
any downstream call — the mapper itself throws (TypeError on
`undefined.split`), contradicting the claim that every absence propagates
into downstream calls which then fail there rather than in the mapper. -/
theorem claim_C8_counterexample :
    mapToDatabaseFormat ⟨none, some "2024-01-01", some (JNum.num 1), some []⟩ =
      Except.error Err.typeError := by decide

/-- C8 (amended): the mapper performs no default substitution — an absent
`valorTotal` or absent item sub-field passes through unchanged (absent
`idItem` becoming a NaN `productId`) and can only fail downstream; but an
absent `numeroPedido` or `items` makes the mapper itself throw a TypeError,
and an absent or unparseable `dataCriacao` makes it throw a RangeError. -/
theorem claim_C8_no_defaults (np dc : Option String) (vt : Option JNum)
    (its : Option (List InputItem)) :
    (np = none → mapToDatabaseFormat ⟨np, dc, vt, its⟩ = Except.error Err.typeError) ∧
    (∀ s, np = some s → jsDateParse dc = none →
      mapToDatabaseFormat ⟨np, dc, vt, its⟩ = Except.error Err.rangeError) ∧
    (∀ s ms, np = some s → jsDateParse dc = some ms → its = none →
      mapToDatabaseFormat ⟨np, dc, vt, its⟩ = Except.error Err.typeError) ∧
    (∀ s ms l, np = some s → jsDateParse dc = some ms → its = some l →
      mapToDatabaseFormat ⟨np, dc, vt, its⟩ =
        Except.ok ⟨jsSplitHead s, vt, jsToISOString ms,
          l.map fun item =>
            MappedItem.mk (jsParseInt item.idItem) item.quantidadeItem item.valorItem⟩) := by
  refine ⟨?_, ?_, ?_, ?_⟩
  · intro h
    cases h
    exact mapToDatabaseFormat_absent_numeroPedido dc vt its
  · intro s hs hdc
    cases hs
    exact mapToDatabaseFormat_bad_date s dc vt its hdc
  · intro s ms hs hdc hits
    cases hs
    cases hits
    exact mapToDatabaseFormat_absent_items s dc ms vt hdc
  · intro s ms l hs hdc hl
    cases hs
    cases hl
    exact mapToDatabaseFormat_ok s dc ms vt l hdc

/-- C8, witness for the amended theorem: with `valorTotal` absent and all
item sub-fields absent, the mapper succeeds and propagates the absences
unchanged (`productId` NaN, `quantity` and `price` undefined). -/
theorem claim_C8_witness :
    mapToDatabaseFormat ⟨some "5-9", some "2024-01-01", none, some [⟨none, none, none⟩]⟩ =
      Except.ok ⟨jsSplitHead "5-9", none, jsToISOString 1704067200000,
        [⟨jsParseInt none, none, none⟩]⟩ :=
  (claim_C8_no_defaults (some "5-9") (some "2024-01-01") none
      (some [⟨none, none, none⟩])).2.2.2 "5-9" 1704067200000 [⟨none, none, none⟩]
    rfl (by decide) rfl

/-- C3, counterexample: the body `quantidadeItem = 0, valorItem = 5`
supplies both fields under the first spelling, yet validation fails:
the JS `||` fallback takes the first TRUTHY (not first non-null) value,
so the falsy `0` falls through to the absent `quantity`, leaving
`undefined`. -/
theorem claim_C3_counterexample :
    updateItemOrder "1001" 7 ⟨JVal.num 0, JVal.undef, JVal.num 5, JVal.undef⟩ sampleDb =
      (Except.error Err.validation, sampleDb, []) := by decide

/-- C3 (amended): `updateItemOrder` resolves quantity and price by taking
the first TRUTHY spelling (`quantidadeItem` before `quantity`, `valorItem`
before `price`; falsy supplied values such as 0 fall through), and throws
the validation error — before any store read or write (empty event trace,
store untouched) — precisely when a resolved value is `undefined`; when
both resolved values are not `undefined` the call never fails validation. -/
theorem claim_C3_validation (orderId : String) (productId : Int)
    (body : ItemBody) (db : Db) :
    (jsOr body.quantidadeItem body.quantity = JVal.undef ∨
        jsOr body.valorItem body.price = JVal.undef →
      updateItemOrder orderId productId body db =
        (Except.error Err.validation, db, [])) ∧
    (¬ jsOr body.quantidadeItem body.quantity = JVal.undef →
      ¬ jsOr body.valorItem body.price = JVal.undef →
      (updateItemOrder orderId productId body db).1 ≠ Except.error Err.validation) := by
  constructor
  · intro h
    simp only [updateItemOrder, if_pos h]
  · intro hq hp
    have hcond : ¬(jsOr body.quantidadeItem body.quantity = JVal.undef ∨
        jsOr body.valorItem body.price = JVal.undef) := by
      rintro (h | h)
      · exact hq h
      · exact hp h
    unfold updateItemOrder
    rw [if_neg hcond]
    split
    · simp
    · split
      · rename_i e heq
        have := updateOrderItem_error_shape db orderId productId
          (jsOr body.quantidadeItem body.quantity) (jsOr body.valorItem body.price) e heq
        subst this
        simp
      · split
        · simp
        · simp

/-- C3, witness for the amended theorem: with every spelling absent the
call fails validation immediately, with the store untouched and no store
event issued. -/
theorem claim_C3_witness :
    updateItemOrder "1001" 7 ⟨JVal.undef, JVal.undef, JVal.undef, JVal.undef⟩ sampleDb =
      (Except.error Err.validation, sampleDb, []) :=
  (claim_C3_validation "1001" 7 ⟨JVal.undef, JVal.undef, JVal.undef, JVal.undef⟩
      sampleDb).1 (by decide)

/-- C10: whenever `updateItemOrder` returns normally its value is `true`:
the zero-affected-rows case throws before the return statement, so the
returned `rowCount > 0` is necessarily true. -/
theorem claim_C10_returns_true (orderId : String) (productId : Int)
    (body : ItemBody) (db : Db) (b : Bool) (db2 : Db) (tr : List Event)
    (h : updateItemOrder orderId productId body db = (Except.ok b, db2, tr)) :
    b = true := by
  unfold updateItemOrder at h
  split at h
  · dsimp only at h
    split at h
    · simp at h
    · simp at h
  · dsimp only at h
    split at h
    · simp at h
    · split at h
      · simp at h
      · split at h
        · simp at h
        · rename_i rowCount view heqrc hrc
          have hb : decide (0 < rowCount) = b := by
            have h1 := congrArg (fun t => t.1) h
            simpa using h1
          subst hb
          simp only [decide_eq_true_eq]
          omega

/-- C10, witness: a concrete successful item update returns `true`. -/
theorem claim_C10_witness : (true : Bool) = true :=
  claim_C10_returns_true "1001" 7 sampleBody sampleDb true
    ⟨[⟨"1001", mkRat 199 2, 1704067200000⟩], [⟨"1001", 7, 3, 5⟩]⟩
    [Event.poolQuery, Event.connect, Event.begin, Event.clientQuery,
     Event.commit, Event.release]
    (by decide)

/-- C5, code bug: `getOrderDetails` on an id with no matching header row
does not throw the documented typed Not-Found error: `OrderService.js`
never imports `ResourceNotFoundException` (its JSDoc still declares
`@throws` of that class and the controller checks `instanceof` on it), so
line 94 throws a plain ReferenceError carrying neither a resource name nor
the requested id. -/
theorem claim_C5_code_bug :
    getOrderDetails sampleDb "9999" =
      (Except.error Err.referenceError, sampleDb, [Event.poolQuery]) := by decide

/-- C6, code bug: targeting existing order "1001" with nonexistent item 99,
the zero-affected-rows path does roll back and leave the committed store
unchanged, but the error thrown at line 208 is a plain ReferenceError (the
`ResourceNotFoundException` class is not in scope), not a Not-Found error
naming the item and the order. -/
theorem claim_C6_code_bug :
    updateItemOrder "1001" 99 sampleBody sampleDb =
      (Except.error Err.referenceError, sampleDb,
       [Event.poolQuery, Event.connect, Event.begin, Event.clientQuery,
        Event.rollback, Event.release]) := by decide

/-- C7, code bug: `deleteOrder` on an id whose delete affects zero rows
changes nothing, but line 240 throws a plain ReferenceError (the
`ResourceNotFoundException` class is not in scope), not the documented
Not-Found error. -/
theorem claim_C7_code_bug :
    deleteOrder "9999" sampleDb =
      (Except.error Err.referenceError, sampleDb, [Event.poolQuery]) := by decide

/-- A successfully converted header row carries the mapped orderId. -/
theorem rowOfHeader_orderid (d : MappedOrder) (hr : OrderRow)
    (h : rowOfHeader d = some hr) : hr.orderid = d.orderId := by
  unfold rowOfHeader at h
  split at h
  · injection h with h2
    rw [← h2]
  · exact Option.noConfusion h

/-- Inversion of a successful header insert: the header converted, no
duplicate key was present, and the view gained exactly that row. -/
theorem insertOrder_ok (view : Db) (d : MappedOrder) (v2 : Db)
    (h : insertOrder view d = Except.ok v2) :
    ∃ hr, rowOfHeader d = some hr ∧
      view.orders.any (fun r => r.orderid == hr.orderid) = false ∧
      v2 = ⟨view.orders ++ [hr], view.items⟩ := by
  unfold insertOrder at h
  split at h
  · exact Except.noConfusion h
  · rename_i hr hrow
    split at h
    · exact Except.noConfusion h
    · rename_i hdup
      injection h with h2
      exact ⟨hr, hrow, by simpa using hdup, h2.symm⟩

/-- The item-insert loop, on a view whose orders contain the target
orderId, either fails or appends exactly the converted rows in input
order. -/
theorem insertItemsLoop_shape (orderId : String) (items : List MappedItem) :
    ∀ view : Db, view.orders.any (fun r => r.orderid == orderId) = true →
      (∃ e evs, insertItemsLoop view orderId items = (Except.error e, evs)) ∨
      (∃ irows evs, rowsOfItems orderId items = some irows ∧
        insertItemsLoop view orderId items =
          (Except.ok ⟨view.orders, view.items ++ irows⟩, evs)) := by
  induction items with
  | nil =>
    intro view hv
    right
    exact ⟨[], [], rfl, by simp [insertItemsLoop]⟩
  | cons it rest ih =>
    intro view hv
    cases hrow : rowOfItem orderId it with
    | none =>
      left
      refine ⟨Err.invalidValue, [Event.clientQuery], ?_⟩
      simp [insertItemsLoop, insertOrderItem, hrow]
    | some row =>
      have hins : insertOrderItem view orderId it =
          Except.ok ⟨view.orders, view.items ++ [row]⟩ := by
        unfold insertOrderItem
        rw [hrow, hv]
        simp
      cases ih ⟨view.orders, view.items ++ [row]⟩ hv with
      | inl hl =>
        obtain ⟨e, evs, he⟩ := hl
        left
        exact ⟨e, Event.clientQuery :: evs, by simp [insertItemsLoop, hins, he]⟩
      | inr hr2 =>
        obtain ⟨irows, evs, hmap, hloop⟩ := hr2
        right
        refine ⟨row :: irows, Event.clientQuery :: evs, ?_, ?_⟩
        · simp [rowsOfItems, hrow, hmap]
        · simp [insertItemsLoop, hins, hloop]

/-- C1: `createOrder` is atomic: either every step succeeds and the
committed store gains exactly one header row plus one item row per payload
item, appended in input order, or some step fails (mapper, duplicate key,
or any insert) and the committed store is left exactly unchanged with the
original error propagated; in particular a duplicate orderId yields the
store's duplicate-key error itself, unwrapped. -/
theorem claim_C1_create_atomic (inputBody : InputOrder) (db : Db) :
    ((∃ e tr, createOrder inputBody db = (Except.error e, db, tr)) ∨
     (∃ d hr irows tr,
        mapToDatabaseFormat inputBody = Except.ok d ∧
        rowOfHeader d = some hr ∧
        rowsOfItems d.orderId d.items = some irows ∧
        createOrder inputBody db =
          (Except.ok (d.orderId, d), ⟨db.orders ++ [hr], db.items ++ irows⟩, tr))) ∧
    (∀ d hr, mapToDatabaseFormat inputBody = Except.ok d →
      rowOfHeader d = some hr →
      (∃ r ∈ db.orders, r.orderid = d.orderId) →
      ∃ tr, createOrder inputBody db = (Except.error Err.dupKey, db, tr)) := by
  constructor
  · cases hmap : mapToDatabaseFormat inputBody with
    | error e =>
      left
      exact ⟨e, [], by simp [createOrder, hmap]⟩
    | ok d =>
      cases hins : insertOrder db d with
      | error e =>
        left
        exact ⟨e, [Event.connect, Event.begin, Event.clientQuery,
          Event.rollback, Event.release], by simp [createOrder, hmap, hins]⟩
      | ok view1 =>
        obtain ⟨hr, hrow, _, hview1⟩ := insertOrder_ok db d view1 hins
        have hany : view1.orders.any (fun r => r.orderid == d.orderId) = true := by
          rw [hview1]
          have : hr.orderid = d.orderId := rowOfHeader_orderid d hr hrow
          simp [List.any_append, this]
        cases insertItemsLoop_shape d.orderId d.items view1 hany with
        | inl hl =>
          obtain ⟨e, evs, he⟩ := hl
          left
          refine ⟨e, [Event.connect, Event.begin, Event.clientQuery] ++ evs
            ++ [Event.rollback, Event.release], ?_⟩
          simp [createOrder, hmap, hins, he]
        | inr hr2 =>
          obtain ⟨irows, evs, hmapi, hloop⟩ := hr2
          right
          subst hview1
          refine ⟨d, hr, irows, [Event.connect, Event.begin, Event.clientQuery] ++ evs
            ++ [Event.commit, Event.release], rfl, hrow, hmapi, ?_⟩
          simp [createOrder, hmap, hins, hloop]
  · intro d hr hmap hrow hdup
    have hins : insertOrder db d = Except.error Err.dupKey := by
      unfold insertOrder
      have hany : db.orders.any (fun r => r.orderid == hr.orderid) = true := by
        obtain ⟨r, hrmem, hrid⟩ := hdup
        refine List.any_eq_true.mpr ⟨r, hrmem, ?_⟩
        have : hr.orderid = d.orderId := rowOfHeader_orderid d hr hrow
        simp [hrid, this]
      rw [hrow]
      simp [hany]
    exact ⟨[Event.connect, Event.begin, Event.clientQuery,
      Event.rollback, Event.release], by simp [createOrder, hmap, hins]⟩

/-- C1, witness for the duplicate-key clause: creating the worked-example
order against a store already holding orderId "1001" rolls back (store
unchanged) and surfaces the store's duplicate-key error itself. -/
theorem claim_C1_witness :
    ∃ tr, createOrder sampleInput sampleDb = (Except.error Err.dupKey, sampleDb, tr) :=
  (claim_C1_create_atomic sampleInput sampleDb).2 sampleMapped
    ⟨"1001", mkRat 199 2, 1704067200000⟩ (by decide) (by decide)
    ⟨⟨"1001", mkRat 199 2, 1704067200000⟩, by decide, rfl⟩

/-- Every event the item-insert loop emits is a plain client statement
(never a connect/release/commit/rollback). -/
theorem insertItemsLoop_events (orderId : String) (items : List MappedItem) :
    ∀ view : Db, ∀ ev ∈ (insertItemsLoop view orderId items).2,
      ev = Event.clientQuery := by
  induction items with
  | nil =>
    intro view ev hev
    simp [insertItemsLoop] at hev
  | cons it rest ih =>
    intro view ev hev
    unfold insertItemsLoop at hev
    cases hins : insertOrderItem view orderId it with
    | error e =>
      rw [hins] at hev
      simp at hev
      exact hev
    | ok v2 =>
      rw [hins] at hev
      simp at hev
      cases hev with
      | inl h => exact h
      | inr h => exact ih v2 ev h

/-- C9: every transactional write path (`createOrder`, `updateOrder`,
`updateItemOrder`) releases exactly as many connections as it acquires,
and whenever an error propagates out after a connection was acquired the
trace ends with the rollback immediately followed by the release — the
rollback runs before the error escapes and the connection is never
leaked. -/
theorem claim_C9_resource_discipline (inputBody : InputOrder) (orderId : String)
    (productId : Int) (body : ItemBody) (db : Db) :
    txSafe (createOrder inputBody db) ∧ txSafe (updateOrder orderId inputBody db) ∧
      txSafe (updateItemOrder orderId productId body db) := by
  refine ⟨?_, ?_, ?_⟩
  · cases hmap : mapToDatabaseFormat inputBody with
    | error e =>
      rw [show createOrder inputBody db = (Except.error e, db, []) by
        simp [createOrder, hmap]]
      exact ⟨rfl, fun e2 h1 h2 => absurd h2 (by simp)⟩
    | ok d =>
      cases hins : insertOrder db d with
      | error e =>
        rw [show createOrder inputBody db = (Except.error e, db,
            [Event.connect, Event.begin, Event.clientQuery,
             Event.rollback, Event.release]) by simp [createOrder, hmap, hins]]
        exact ⟨rfl, fun e2 h1 h2 =>
          ⟨[Event.connect, Event.begin, Event.clientQuery], rfl⟩⟩
      | ok view1 =>
        have hevs := insertItemsLoop_events d.orderId d.items view1
        have hzc : (insertItemsLoop view1 d.orderId d.items).2.count Event.connect = 0 := by
          refine List.count_eq_zero.mpr ?_
          intro hmem
          exact absurd (hevs _ hmem) (by simp)
        have hzr : (insertItemsLoop view1 d.orderId d.items).2.count Event.release = 0 := by
          refine List.count_eq_zero.mpr ?_
          intro hmem
          exact absurd (hevs _ hmem) (by simp)
        cases hloop : insertItemsLoop view1 d.orderId d.items with
        | mk res evs =>
          rw [hloop] at hzc hzr
          cases res with
          | error e =>
            rw [show createOrder inputBody db = (Except.error e, db,
                [Event.connect, Event.begin, Event.clientQuery] ++ evs
                  ++ [Event.rollback, Event.release]) by
              simp [createOrder, hmap, hins, hloop]]
            constructor
            · simp [List.count_append, List.count_cons, hzc, hzr]
            · intro e2 h1 h2
              exact ⟨[Event.connect, Event.begin, Event.clientQuery] ++ evs, by simp⟩
          | ok view2 =>
            rw [show createOrder inputBody db = (Except.ok (d.orderId, d), view2,
                [Event.connect, Event.begin, Event.clientQuery] ++ evs
                  ++ [Event.commit, Event.release]) by
              simp [createOrder, hmap, hins, hloop]]
            constructor
            · simp [List.count_append, List.count_cons, hzc, hzr]
            · intro e2 h1 h2
              exact absurd h1 (by simp)
  · cases hmap : mapToDatabaseFormat inputBody with
    | error e =>
      rw [show updateOrder orderId inputBody db = (Except.error e, db, []) by
        simp [updateOrder, hmap]]
      exact ⟨rfl, fun e2 h1 h2 => absurd h2 (by simp)⟩
    | ok d =>
      cases hfind : findOrderById db orderId with
      | nil =>
        rw [show updateOrder orderId inputBody db =
            (Except.error Err.referenceError, db,
             [Event.connect, Event.begin, Event.poolQuery,
              Event.rollback, Event.release]) by simp [updateOrder, hmap, hfind]]
        exact ⟨rfl, fun e2 h1 h2 =>
          ⟨[Event.connect, Event.begin, Event.poolQuery], rfl⟩⟩
      | cons row rest =>
        cases hupd : updateOrderHeader db orderId d with
        | error e =>
          rw [show updateOrder orderId inputBody db = (Except.error e, db,
              [Event.connect, Event.begin, Event.poolQuery, Event.clientQuery,
               Event.rollback, Event.release]) by simp [updateOrder, hmap, hfind, hupd]]
          exact ⟨rfl, fun e2 h1 h2 =>
            ⟨[Event.connect, Event.begin, Event.poolQuery, Event.clientQuery], rfl⟩⟩
        | ok p =>
          rw [show updateOrder orderId inputBody db = (Except.ok true, p.2,
              [Event.connect, Event.begin, Event.poolQuery, Event.clientQuery,
               Event.commit, Event.release]) by simp [updateOrder, hmap, hfind, hupd]]
          exact ⟨rfl, fun e2 h1 h2 => absurd h1 (by simp)⟩
  · by_cases hval : (jsOr body.quantidadeItem body.quantity = JVal.undef ∨
        jsOr body.valorItem body.price = JVal.undef)
    · rw [show updateItemOrder orderId productId body db =
          (Except.error Err.validation, db, []) by
        simp only [updateItemOrder, if_pos hval]]
      exact ⟨rfl, fun e2 h1 h2 => absurd h2 (by simp)⟩
    · cases hfind : findOrderById db orderId with
      | nil =>
        rw [show updateItemOrder orderId productId body db =
            (Except.error Err.referenceError, db,
             [Event.poolQuery]) by
          simp only [updateItemOrder, if_neg hval]
          rw [hfind]]
        exact ⟨rfl, fun e2 h1 h2 => absurd h2 (by simp)⟩
      | cons row rest =>
        cases hupd : updateOrderItem db orderId productId
            (jsOr body.quantidadeItem body.quantity)
            (jsOr body.valorItem body.price) with
        | error e =>
          rw [show updateItemOrder orderId productId body db = (Except.error e, db,
              [Event.poolQuery, Event.connect, Event.begin, Event.clientQuery,
               Event.rollback, Event.release]) by
            simp only [updateItemOrder, if_neg hval]
            rw [hfind]
            dsimp only
            rw [hupd]]
          exact ⟨rfl, fun e2 h1 h2 =>
            ⟨[Event.poolQuery, Event.connect, Event.begin, Event.clientQuery], rfl⟩⟩
        | ok p =>
          obtain ⟨rc, view2⟩ := p
          by_cases hrc : rc = 0
          · rw [show updateItemOrder orderId productId body db =
                (Except.error Err.referenceError, db,
                 [Event.poolQuery, Event.connect, Event.begin, Event.clientQuery,
                  Event.rollback, Event.release]) by
              simp only [updateItemOrder, if_neg hval]
              rw [hfind]
              dsimp only
              rw [hupd]
              dsimp only
              rw [if_pos hrc]]
            exact ⟨rfl, fun e2 h1 h2 =>
              ⟨[Event.poolQuery, Event.connect, Event.begin, Event.clientQuery], rfl⟩⟩
          · rw [show updateItemOrder orderId productId body db =
                (Except.ok (decide (0 < rc)), view2,
                 [Event.poolQuery, Event.connect, Event.begin, Event.clientQuery,
                  Event.commit, Event.release]) by
              simp only [updateItemOrder, if_neg hval]
              rw [hfind]
              dsimp only
              rw [hupd]
              dsimp only
              rw [if_neg hrc]]
            exact ⟨rfl, fun e2 h1 h2 => absurd h1 (by simp)⟩

/-- C9, witness: a concrete failing transactional run (duplicate key on
create) rolls back before propagating and releases its connection. -/
theorem claim_C9_witness :
    ∃ pre, (createOrder sampleInput sampleDb).2.2 =
      pre ++ [Event.rollback, Event.release] :=
  (claim_C9_resource_discipline sampleInput "1001" 7 sampleBody sampleDb).1.2
    Err.dupKey (by decide) (by decide)
